import Mathlib

/-!
Verification development for the CBT exam-attempt engine.

The repository carries two parallel stacks:
 - an older JavaScript stack: `models/Exam`, `models/Question` (validateAnswer,
   normalizeAnswer, canUserTakeExam), `models/Attempt`, and the express routes
   `exams.js` (start), the attempts router (save answer, submit) and the
   results router (manual grading);
 - a newer TypeScript stack: `models/ExamAttempt.ts` (attempt schema with a
   pre-save hook, calculateScore, calculatePercentage, isPassed) together with
   a richer question schema (isCorrect, calculateMarks) and exam schema
   (getRemainingAttempts).

All JS/TS numbers are modelled as rationals; timestamps are integers
(milliseconds where a division by 1000 appears in the source, otherwise the
unit is irrelevant).  Every definition below is a direct translation of the
named source function; definitions whose name starts with `spec_` are instead
written from the specification text, for comparison against the code.
-/

namespace CBT

/-- JS `Math.round`: round half toward positive infinity, to an integer. -/
def jsRound (q : ℚ) : ℤ :=
  (q + 1/2).floor

/-- Rounding to two decimal places, as written in the submit route:
`Math.round(percentage * 100) / 100`. -/
def round2 (q : ℚ) : ℚ :=
  (jsRound (q * 100) : ℚ) / 100

/-- ASCII whitespace matched by the JS regex class \s (space, tab, line feed,
carriage return, vertical tab, form feed). -/
def isJsWs (c : Char) : Bool :=
  c == ' ' || c == '\t' || c == '\n' || c == '\r' ||
    c == Char.ofNat 11 || c == Char.ofNat 12

/-- JS `String.prototype.toLowerCase`, restricted to the ASCII range that the
test data uses. -/
def jsToLower (s : String) : String :=
  String.mk (s.data.map Char.toLower)

/-- JS `String.prototype.trim`: strip leading and trailing whitespace. -/
def jsTrimList (l : List Char) : List Char :=
  ((l.dropWhile isJsWs).reverse.dropWhile isJsWs).reverse

/-- String wrapper around `jsTrimList`. -/
def jsTrim (s : String) : String :=
  String.mk (jsTrimList s.data)

/-- Helper for the regex replace of \s+ by a single space: the Boolean records
whether the previous character was whitespace. -/
def collapseWsAux : Bool → List Char → List Char
  | _, [] => []
  | prevWs, c :: cs =>
    if isJsWs c then
      if prevWs then collapseWsAux true cs
      else ' ' :: collapseWsAux true cs
    else c :: collapseWsAux false cs

/-- JS `replace(/\s+/g, ' ')`: collapse every whitespace run to one space. -/
def collapseWs (s : String) : String :=
  String.mk (collapseWsAux false s.data)

/-- Raw submitted or stored answer value (the Mixed schema type): a string, an
array of strings, a boolean, or null. -/
inductive AnswerValue where
  | str (s : String)
  | strs (l : List String)
  | bool (b : Bool)
  | null
deriving DecidableEq

/-- JS `String(x)` coercion as used by `normalizeAnswer`. -/
def jsString : AnswerValue → String
  | .str s => s
  | .strs l => String.intercalate "," l
  | .bool b => if b then "true" else "false"
  | .null => "null"

/-- JS strict equality on Mixed values: equal primitives are equal, arrays are
distinct references and never strictly equal, null equals null. -/
def jsStrictEq : AnswerValue → AnswerValue → Bool
  | .str a, .str b => a == b
  | .bool a, .bool b => a == b
  | .null, .null => true
  | _, _ => false

/-- Normalization from `Question.js` `normalizeAnswer`:
`String(answer).toLowerCase().trim().replace(/\s+/g, ' ')`. -/
def normalizeAnswer (s : String) : String :=
  collapseWs (jsTrim (jsToLower s))

/-- The weaker normalization used by the TS question `isCorrect` for the
short-answer case: `answer.toLowerCase().trim()` with no whitespace collapse. -/
def jsLowerTrim (s : String) : String :=
  jsTrim (jsToLower s)

/-! The TS question model (second document of `models/ExamAttempt.ts`). -/

/-- Question kinds of the TS schema. -/
inductive TsQType where
  | mcq_single
  | mcq_multiple
  | true_false
  | short_answer
  | essay
deriving DecidableEq

/-- One entry of the TS options array (presentation fields omitted). -/
structure TsOption where
  text : String
  isCorrect : Bool
deriving DecidableEq

/-- The TS question document: options with correctness flags, accepted
short-answer strings, marks and (question-level) negative marks. -/
structure TsQuestion where
  qtype : TsQType
  options : List TsOption
  correctAnswers : List String
  marks : ℚ
  negativeMarks : ℚ
deriving DecidableEq

/-- Translation of `questionSchema.methods.isCorrect` from the TS model.  The
JS guard `if (!answer || typeof answer !== 'string')` makes the empty string
fail for mcq_single and short_answer; the essay case returns false. -/
def TsQuestion.isCorrect (q : TsQuestion) (answer : AnswerValue) : Bool :=
  match q.qtype with
  | .mcq_single =>
    match answer with
    | .str s =>
      if s = "" then false
      else
        match q.options.find? (fun o => o.isCorrect) with
        | some o => o.text == s
        | none => false
    | _ => false
  | .mcq_multiple =>
    match answer with
    | .strs l =>
      let correctTexts := (q.options.filter (fun o => o.isCorrect)).map (fun o => o.text)
      l.length == correctTexts.length && correctTexts.all (fun c => l.contains c)
    | _ => false
  | .true_false =>
    match answer with
    | .bool b =>
      let correctBool := ((q.options.find? (fun o => o.isCorrect)).map (fun o => o.text)) == some "True"
      b == correctBool
    | _ => false
  | .short_answer =>
    match answer with
    | .str s =>
      if s = "" then false
      else q.correctAnswers.any (fun c => jsLowerTrim s == jsLowerTrim c)
    | _ => false
  | .essay => false

/-- Translation of `questionSchema.methods.calculateMarks` from the TS model:
full marks when correct, minus the question-level negative marks when the
question carries positive negative marks, zero otherwise. -/
def TsQuestion.calculateMarks (q : TsQuestion) (answer : AnswerValue) : ℚ :=
  if q.isCorrect answer then q.marks
  else if 0 < q.negativeMarks then -q.negativeMarks
  else 0

/-! The older JS question model (`models/Question.js`). -/

/-- Question kinds of the JS schema (it has no essay kind; short-answer is its
manually reviewed kind). -/
inductive JsQType where
  | mcq_single
  | mcq_multiple
  | true_false
  | short_answer
deriving DecidableEq

/-- The JS question document: a Mixed `correctAnswer` and a points value; the
`exam` field scopes the question to an exam. -/
structure JsQuestion where
  id : Nat
  exam : Nat
  qtype : JsQType
  correctAnswer : AnswerValue
  points : ℚ
deriving DecidableEq

/-- Translation of `questionSchema.methods.validateAnswer` from `Question.js`:
strict equality for mcq_single and true_false, set equality on option indices
for mcq_multiple, and normalized text comparison for short_answer (against a
single accepted string or any element of an accepted array). -/
def JsQuestion.validateAnswer (q : JsQuestion) (studentAnswer : AnswerValue) : Bool :=
  match q.qtype with
  | .mcq_single => jsStrictEq q.correctAnswer studentAnswer
  | .mcq_multiple =>
    match studentAnswer, q.correctAnswer with
    | .strs sa, .strs ca => sa.length == ca.length && sa.all (fun x => ca.contains x)
    | _, _ => false
  | .true_false => jsStrictEq q.correctAnswer studentAnswer
  | .short_answer =>
    match q.correctAnswer with
    | .strs ca => ca.any (fun c => normalizeAnswer c == normalizeAnswer (jsString studentAnswer))
    | single => normalizeAnswer (jsString single) == normalizeAnswer (jsString studentAnswer)

/-! The older JS exam and attempt models and the express routes that use them
(`models/Exam`, `models/Attempt`, `routes/exams.js` POST /:id/start, and the
attempts router POST /:attemptId/answer and POST /:attemptId/submit). -/

/-- Attempt statuses of the JS attempt schema. -/
inductive JsStatus where
  | in_progress
  | submitted
  | graded
  | abandoned
deriving DecidableEq

/-- One stored answer subdocument of the JS attempt schema.  The `question`
path holds the referenced question id; `questionDoc` models the mongoose
population state of that path: the populated question document when a query
populated `answers.question`, otherwise `none` (only the ObjectId is
present).  The attempts router populates only `exam`, never
`answers.question`, so on that router every loaded answer has
`questionDoc = none`. -/
structure JsAnswer where
  question : Nat
  questionDoc : Option JsQuestion
  studentAnswer : AnswerValue
  isCorrect : Option Bool
  manuallyGraded : Bool
  scoreAwarded : ℚ
  timeSpent : ℚ
  teacherFeedback : Option String
deriving DecidableEq

/-- The JS attempt document (audit-only fields omitted). -/
structure JsAttempt where
  id : Nat
  student : Nat
  exam : Nat
  answers : List JsAnswer
  startedAt : ℤ
  submittedAt : Option ℤ
  timeRemaining : ℚ
  totalScore : ℚ
  maxPossibleScore : ℚ
  percentage : ℚ
  passed : Bool
  status : JsStatus
deriving DecidableEq

/-- The JS exam document: duration in minutes, availability window, pass mark
percentage, attempt policy flags. -/
structure JsExam where
  duration : ℚ
  availableFrom : ℤ
  availableTo : ℤ
  passMark : ℚ
  maxAttempts : Nat
  allowRetakes : Bool
  showResults : Bool
deriving DecidableEq

/-- Translation of the `isAvailable` virtual of `models/Exam`:
`now >= availableFrom && now <= availableTo`. -/
def JsExam.isAvailable (e : JsExam) (now : ℤ) : Bool :=
  decide (e.availableFrom ≤ now ∧ now ≤ e.availableTo)

/-- Result shape of `canUserTakeExam`. -/
structure CanTake where
  canTake : Bool
  reason : Option String
deriving DecidableEq

/-- Translation of `examSchema.methods.canUserTakeExam`.  The DB count over
this student and exam is passed in as the list of that student's attempts for
this exam; the method counts only the statuses submitted and graded. -/
def JsExam.canUserTakeExam (e : JsExam) (now : ℤ) (attempts : List JsAttempt) : CanTake :=
  if ¬ e.isAvailable now then
    ⟨false, some "Exam is not available at this time"⟩
  else
    let attemptCount :=
      (attempts.filter (fun a => a.status == JsStatus.submitted || a.status == JsStatus.graded)).length
    if e.maxAttempts ≤ attemptCount ∧ ¬ e.allowRetakes then
      ⟨false, some "Maximum attempts reached"⟩
    else ⟨true, none⟩

/-- The attempt record created by POST /:id/start: schema defaults with
status in_progress and the start timestamp. -/
def newAttempt (id student exam : Nat) (now : ℤ) : JsAttempt :=
  { id := id, student := student, exam := exam, answers := [], startedAt := now,
    submittedAt := none, timeRemaining := 0, totalScore := 0, maxPossibleScore := 0,
    percentage := 0, passed := false, status := JsStatus.in_progress }

/-- Translation of POST /:id/start in `routes/exams.js`: gate on
`canUserTakeExam`, then unconditionally create and save a new attempt.  The
list is the store of this student's attempts for this exam. -/
def startExamRoute (e : JsExam) (attempts : List JsAttempt) (now : ℤ)
    (newId student exam : Nat) : Except String (List JsAttempt × JsAttempt) :=
  let ct := e.canUserTakeExam now attempts
  if ct.canTake then
    let a := newAttempt newId student exam now
    .ok (attempts ++ [a], a)
  else .error (ct.reason.getD "")

/-- The upsert at the heart of POST /:attemptId/answer: `findIndex` by
question id, then replace in place, else push. -/
def upsertAnswer (d : JsAnswer) : List JsAnswer → List JsAnswer
  | [] => [d]
  | a :: rest =>
    if a.question = d.question then d :: rest
    else a :: upsertAnswer d rest

/-- Translation of POST /:attemptId/answer of the attempts router.  The
`findOne({_id, student, status: 'in-progress'})` lookup is modelled by the
status guard on the attempt row (the id and student scoping is done by the
caller that selects `att`).  Objective kinds are auto-graded through
`validateAnswer`; short-answer is stored with null correctness and no score. -/
def saveAnswerRoute (qbank : List JsQuestion) (att : JsAttempt) (questionId : Nat)
    (answer : AnswerValue) (timeSpent : ℚ) : Except String (JsAttempt × Bool × ℚ) :=
  if att.status ≠ JsStatus.in_progress then
    .error "Attempt not found or already submitted"
  else
    match qbank.find? (fun q => q.id == questionId) with
    | none => .error "Question not found"
    | some q =>
      let graded := q.qtype != JsQType.short_answer
      let isCorrect := graded && q.validateAnswer answer
      let scoreAwarded : ℚ := if isCorrect then q.points else 0
      let d : JsAnswer :=
        { question := questionId, questionDoc := none, studentAnswer := answer,
          isCorrect := if graded then some isCorrect else none,
          manuallyGraded := false, scoreAwarded := scoreAwarded,
          timeSpent := timeSpent, teacherFeedback := none }
      .ok ({ att with answers := upsertAnswer d att.answers }, isCorrect, scoreAwarded)

/-- The per-answer rewrite in the submit loop: short answers that were not
manually graded are zeroed and reset to null correctness; answers whose
question no longer exists are left untouched. -/
def submitUpdatedAnswer (qbank : List JsQuestion) (a : JsAnswer) : JsAnswer :=
  match qbank.find? (fun q => q.id == a.question) with
  | none => a
  | some q =>
    if q.qtype == JsQType.short_answer && !a.manuallyGraded then
      { a with scoreAwarded := 0, isCorrect := none }
    else a

/-- The total accumulated by the submit loop: the loop does `continue` on a
missing question, so such answers contribute nothing. -/
def submitTotalScore (qbank : List JsQuestion) (answers : List JsAnswer) : ℚ :=
  answers.foldl (fun acc a =>
    match qbank.find? (fun q => q.id == a.question) with
    | none => acc
    | some _ => acc + (submitUpdatedAnswer qbank a).scoreAwarded) 0

/-- Sum of points over the exam's questions
(`questions.reduce((sum, q) => sum + q.points, 0)`). -/
def submitMaxPossibleScore (qbank : List JsQuestion) (examId : Nat) : ℚ :=
  (((qbank.filter (fun q => q.exam == examId)).map (fun q => q.points))).sum

/-- The raw (unrounded) percentage computed by the submit route. -/
def submitRawPercentage (qbank : List JsQuestion) (att : JsAttempt) : ℚ :=
  let maxPossibleScore := submitMaxPossibleScore qbank att.exam
  if 0 < maxPossibleScore then submitTotalScore qbank att.answers / maxPossibleScore * 100
  else 0

/-- The pass mark read by `calculateScores`: `this.exam?.passMark || 60`.
The JS `||` falls back to 60 both when the exam is not populated and when the
populated pass mark is the (falsy) number 0. -/
def jsPassMarkOr60 (exam : Option JsExam) : ℚ :=
  match exam with
  | some e => if e.passMark = 0 then 60 else e.passMark
  | none => 60

/-- The total summed by `calculateScores`: `totalScore += answer.scoreAwarded`
over every answer subdocument. -/
def scoresTotal (answers : List JsAnswer) : ℚ :=
  answers.foldl (fun acc a => acc + a.scoreAwarded) 0

/-- The maximum summed by `calculateScores`:
`maxPossibleScore += answer.question?.points || 0`, reading the populated
question document on each answer and falling back to 0 when only the
ObjectId is present. -/
def scoresMaxPossible (answers : List JsAnswer) : ℚ :=
  answers.foldl (fun acc a => acc + ((a.questionDoc.map (fun q => q.points)).getD 0)) 0

/-- Translation of `attemptSchema.methods.calculateScores` of the JS attempt
model: recompute totalScore, maxPossibleScore, percentage (unrounded,
0 when the maximum is not positive) and passed against
`this.exam?.passMark || 60`. -/
def calculateScores (exam : Option JsExam) (att : JsAttempt) : JsAttempt :=
  let totalScore := scoresTotal att.answers
  let maxPossibleScore := scoresMaxPossible att.answers
  let percentage : ℚ :=
    if 0 < maxPossibleScore then totalScore / maxPossibleScore * 100 else 0
  { att with
    totalScore := totalScore,
    maxPossibleScore := maxPossibleScore,
    percentage := percentage,
    passed := decide (jsPassMarkOr60 exam ≤ percentage) }

/-- Translation of `attemptSchema.pre('save')` of the JS attempt model: the
scores are recomputed only when there is at least one answer and the status
has left in-progress. -/
def attemptPreSave (exam : Option JsExam) (att : JsAttempt) : JsAttempt :=
  if att.answers ≠ [] ∧ att.status ≠ JsStatus.in_progress then calculateScores exam att
  else att

/-- Result payload of the submit route. -/
structure SubmitResult where
  totalScore : ℚ
  maxPossibleScore : ℚ
  percentage : ℚ
  passed : Bool
deriving DecidableEq

/-- The document state the submit route assigns before calling
`attempt.save()`: route-computed totals, the two-decimal percentage, the
passed flag compared against the live exam pass mark, the new status and the
rewritten answers. -/
def submitAssigned (qbank : List JsQuestion) (exam : JsExam) (att : JsAttempt)
    (now : ℤ) (bodyTimeRemaining : ℚ) : JsAttempt :=
  { att with
    submittedAt := some now,
    totalScore := submitTotalScore qbank att.answers,
    maxPossibleScore := submitMaxPossibleScore qbank att.exam,
    percentage := round2 (submitRawPercentage qbank att),
    passed := decide (exam.passMark ≤ submitRawPercentage qbank att),
    status := if exam.showResults then JsStatus.graded else JsStatus.submitted,
    timeRemaining := bodyTimeRemaining,
    answers := att.answers.map (fun a => submitUpdatedAnswer qbank a) }

/-- Translation of POST /:attemptId/submit of the attempts router.  `exam` is
the exam document populated at submit time (a live read of the referenced
exam); `qbank` is the question store.  The `attempt.save()` call runs the
attempt pre-save hook on the assigned document, and the response reads
`attempt.percentage` back from the saved document while `totalScore`,
`maxPossibleScore` and `passed` are the route-local values. -/
def submitAttemptRoute (qbank : List JsQuestion) (exam : JsExam) (att : JsAttempt)
    (now : ℤ) (bodyTimeRemaining : ℚ) : Except String (JsAttempt × SubmitResult) :=
  if att.status ≠ JsStatus.in_progress then
    .error "Attempt already submitted"
  else
    let saved := attemptPreSave (some exam) (submitAssigned qbank exam att now bodyTimeRemaining)
    .ok (saved,
      { totalScore := submitTotalScore qbank att.answers,
        maxPossibleScore := submitMaxPossibleScore qbank att.exam,
        percentage := saved.percentage,
        passed := decide (exam.passMark ≤ submitRawPercentage qbank att) })

/-! The TS attempt model (`models/ExamAttempt.ts`, first document): statuses,
answer subdocuments, the instance methods and the pre-save hook. -/

/-- Attempt statuses of the TS attempt schema. -/
inductive TsStatus where
  | in_progress
  | submitted
  | auto_submitted
  | terminated
  | abandoned
deriving DecidableEq

/-- One stored answer subdocument of the TS attempt schema: the correctness
flag is a Boolean with default false (the schema has no null state for it). -/
structure TsAnswer where
  questionId : Nat
  answer : AnswerValue
  isCorrect : Bool
  marksAwarded : ℚ
  timeTaken : ℚ
  isFlagged : Bool
  isReviewed : Bool
deriving DecidableEq

/-- The exam fields that `isPassed` and the timeRemaining virtual read from a
populated `this.exam`. -/
structure TsExamRef where
  passMark : ℚ
  duration : ℚ
deriving DecidableEq

/-- The TS attempt document (monitoring fields omitted).  `startTime` and
`endTime` are millisecond timestamps; `timeTaken` is in seconds. -/
structure TsAttempt where
  status : TsStatus
  startTime : ℤ
  endTime : Option ℤ
  submittedAt : Option ℤ
  timeTaken : ℤ
  score : ℚ
  percentage : ℚ
  totalMarks : ℚ
  passed : Bool
  answers : List TsAnswer
deriving DecidableEq

/-- Translation of `examAttemptSchema.methods.calculateScore`: sum of
marksAwarded over the answers (0 for an empty list, as in the guard). -/
def calculateScore (att : TsAttempt) : ℚ :=
  att.answers.foldl (fun total a => total + a.marksAwarded) 0

/-- Translation of `examAttemptSchema.methods.calculatePercentage`:
`Math.round((score / totalMarks) * 100)` guarded by `totalMarks === 0`.  Note
the rounding is to the nearest integer, not to two decimal places. -/
def calculatePercentage (att : TsAttempt) : ℚ :=
  if att.totalMarks = 0 then 0
  else (jsRound (att.score / att.totalMarks * 100) : ℚ)

/-- The pass mark read by `isPassed`: `this.exam?.passMark || 50`.  The JS
`||` falls back to 50 both when the exam is not populated and when the
populated pass mark is the (falsy) number 0. -/
def passMarkOf (exam : Option TsExamRef) : ℚ :=
  match exam with
  | some e => if e.passMark = 0 then 50 else e.passMark
  | none => 50

/-- Translation of `examAttemptSchema.methods.isPassed`:
`this.percentage >= (this.exam?.passMark || 50)`. -/
def isPassed (exam : Option TsExamRef) (att : TsAttempt) : Bool :=
  decide (passMarkOf exam ≤ att.percentage)

/-- Step 1 of the pre-save hook: recompute `timeTaken` (seconds, floored)
when an end time is present. -/
def preSaveTime (att : TsAttempt) : TsAttempt :=
  match att.endTime with
  | some e => { att with timeTaken := Int.fdiv (e - att.startTime) 1000 }
  | none => att

/-- Step 2 of the pre-save hook: recompute score then percentage, but only
when the answers array is non-empty. -/
def preSaveScore (att : TsAttempt) : TsAttempt :=
  if att.answers = [] then att
  else
    { att with score := calculateScore att,
               percentage := calculatePercentage { att with score := calculateScore att } }

/-- Step 3 of the pre-save hook: recompute `passed`, but only when the
(current) percentage is strictly positive. -/
def preSavePassed (exam : Option TsExamRef) (att : TsAttempt) : TsAttempt :=
  if 0 < att.percentage then { att with passed := isPassed exam att } else att

/-- Step 4 of the pre-save hook: stamp `submittedAt` and `endTime` when the
status is a submitted one and they are still unset. -/
def preSaveSubmitted (now : ℤ) (att : TsAttempt) : TsAttempt :=
  if att.status = TsStatus.submitted ∨ att.status = TsStatus.auto_submitted then
    let a1 := if att.submittedAt = none then { att with submittedAt := some now } else att
    if a1.endTime = none then { a1 with endTime := some now } else a1
  else att

/-- Translation of `examAttemptSchema.pre('save', ...)`: the four steps in
source order. -/
def preSave (exam : Option TsExamRef) (now : ℤ) (att : TsAttempt) : TsAttempt :=
  preSaveSubmitted now (preSavePassed exam (preSaveScore (preSaveTime att)))

/-- Translation of `examSchema.methods.getRemainingAttempts` of the TS exam
model: the count is over statuses submitted and auto_submitted only. -/
def getRemainingAttempts (maxAttempts : ℤ) (attempts : List TsAttempt) : ℤ :=
  let counted :=
    (attempts.filter (fun a => a.status == TsStatus.submitted || a.status == TsStatus.auto_submitted)).length
  max 0 (maxAttempts - counted)

/-! Definitions written from the specification text, for comparison with the
code translations above. -/

/-- Modelled from the spec: percentage = round(score / totalMarks x 100, 2)
when totalMarks is positive, 0 when totalMarks is zero. -/
def spec_percentage (score totalMarks : ℚ) : ℚ :=
  if 0 < totalMarks then round2 (score / totalMarks * 100) else 0

/-- Modelled from the spec: marks awarded are question.marks if correct,
minus question.negativeMarks if incorrect and negative marking is enabled for
the exam, 0 otherwise. -/
def spec_marksAwarded (negativeMarkingEnabled : Bool) (q : TsQuestion) (a : AnswerValue) : ℚ :=
  if q.isCorrect a then q.marks
  else if negativeMarkingEnabled then -q.negativeMarks
  else 0

/-- Modelled from the spec: a short answer is correct iff its fully
normalized text (lowercased, trimmed, whitespace collapsed) equals the
normalized form of some accepted answer. -/
def spec_shortAnswerCorrect (accepted : List String) (s : String) : Bool :=
  accepted.any (fun c => normalizeAnswer c == normalizeAnswer s)

/-- Modelled from the spec: a status is terminal iff it is not in_progress
(the claim's list submitted/auto_submitted/terminated/abandoned/graded,
intersected with the statuses the JS model has). -/
def spec_isTerminal : JsStatus → Bool
  | .in_progress => false
  | _ => true

/-- Modelled from the spec: the count of prior attempts in a terminal
status. -/
def spec_terminalCount (attempts : List JsAttempt) : Nat :=
  (attempts.filter (fun a => spec_isTerminal a.status)).length

/-- Modelled from the spec: the attempt time budget in seconds is the exam
duration (minutes) times 60. -/
def spec_timeBudgetSeconds (e : JsExam) : ℚ :=
  e.duration * 60

/-- Modelled from the spec: a save-answer write is allowed only while the
attempt is in progress and now is before startTime + timeBudgetSeconds. -/
def spec_saveAllowed (e : JsExam) (att : JsAttempt) (now : ℤ) : Bool :=
  att.status == JsStatus.in_progress &&
    decide ((now : ℚ) < (att.startedAt : ℚ) + spec_timeBudgetSeconds e)

/-- Count of stored answers for one question id. -/
def countForQuestion (qid : Nat) (l : List JsAnswer) : Nat :=
  (l.filter (fun a => a.question == qid)).length

/-- Count of a student's attempts with status submitted or graded (the
statuses `canUserTakeExam` counts). -/
def submittedOrGradedCount (attempts : List JsAttempt) : Nat :=
  (attempts.filter (fun a => a.status == JsStatus.submitted || a.status == JsStatus.graded)).length

/-! Concrete fixtures used by the witnesses and counterexamples below. -/

/-- A 5-point true/false question of exam 3 whose correct answer is true. -/
def qC1a : JsQuestion :=
  { id := 1, exam := 3, qtype := .true_false, correctAnswer := .bool true, points := 5 }

/-- A 5-point true/false question of exam 3 whose correct answer is false. -/
def qC1b : JsQuestion :=
  { id := 2, exam := 3, qtype := .true_false, correctAnswer := .bool false, points := 5 }

/-- A stored correct answer to question 1, worth 5 points. -/
def ansC1a : JsAnswer :=
  { question := 1, questionDoc := none, studentAnswer := .bool true, isCorrect := some true,
    manuallyGraded := false, scoreAwarded := 5, timeSpent := 10, teacherFeedback := none }

/-- A stored incorrect answer to question 2, worth 0 points. -/
def ansC1b : JsAnswer :=
  { question := 2, questionDoc := none, studentAnswer := .bool true, isCorrect := some false,
    manuallyGraded := false, scoreAwarded := 0, timeSpent := 10, teacherFeedback := none }

/-- An in-progress attempt at exam 3 scoring 5 of 10 (50 percent). -/
def attC1 : JsAttempt :=
  { id := 1, student := 7, exam := 3, answers := [ansC1a, ansC1b], startedAt := 0,
    submittedAt := none, timeRemaining := 0, totalScore := 0, maxPossibleScore := 0,
    percentage := 0, passed := false, status := .in_progress }

/-- Exam 3 as it stands when the attempt is submitted: the pass mark has been
edited up to 80 while the attempt was running. -/
def examSubmitC1 : JsExam :=
  { duration := 60, availableFrom := 0, availableTo := 10000, passMark := 80,
    maxAttempts := 1, allowRetakes := false, showResults := false }

/-- Exam 3 as it stood when the attempt started: pass mark 50.  This is the
value a snapshot taken at start time would hold. -/
def examStartC1 : JsExam :=
  { duration := 60, availableFrom := 0, availableTo := 10000, passMark := 50,
    maxAttempts := 1, allowRetakes := false, showResults := false }

/-- A TS attempt with score 1 of totalMarks 3: the exact percentage is
100/3 = 33.333..., which separates the two roundings. -/
def attC2 : TsAttempt :=
  { status := .submitted, startTime := 0, endTime := none, submittedAt := none,
    timeTaken := 0, score := 1, percentage := 0, totalMarks := 3, passed := false,
    answers := [] }

/-- A one-minute exam (time budget 60 seconds). -/
def examC3 : JsExam :=
  { duration := 1, availableFrom := 0, availableTo := 10000, passMark := 60,
    maxAttempts := 1, allowRetakes := false, showResults := false }

/-- An in-progress attempt that started at time 0. -/
def attC3 : JsAttempt :=
  { id := 1, student := 1, exam := 1, answers := [], startedAt := 0,
    submittedAt := none, timeRemaining := 0, totalScore := 0, maxPossibleScore := 0,
    percentage := 0, passed := false, status := .in_progress }

/-- A 2-point true/false question of exam 1. -/
def qC3 : JsQuestion :=
  { id := 5, exam := 1, qtype := .true_false, correctAnswer := .bool true, points := 2 }

/-- A published, available exam allowing a single attempt and no retakes. -/
def examC4 : JsExam :=
  { duration := 60, availableFrom := 0, availableTo := 100, passMark := 60,
    maxAttempts := 1, allowRetakes := false, showResults := false }

/-- An attempt of student 7 on exam 3 that is still in progress. -/
def attC4 : JsAttempt :=
  newAttempt 1 7 3 5

/-- A 5-mark single-choice question carrying 2 negative marks. -/
def qC5 : TsQuestion :=
  { qtype := .mcq_single, options := [⟨"A", true⟩, ⟨"B", false⟩], correctAnswers := [],
    marks := 5, negativeMarks := 2 }

/-- A TS short-answer question accepting the text a b (single internal
space). -/
def qC6 : TsQuestion :=
  { qtype := .short_answer, options := [], correctAnswers := ["a b"], marks := 1,
    negativeMarks := 0 }

/-- A JS short-answer question accepting the same text. -/
def qjC6 : JsQuestion :=
  { id := 9, exam := 1, qtype := .short_answer, correctAnswer := .strs ["a b"], points := 1 }

/-- A 10-mark essay question carrying 2 negative marks. -/
def qC7 : TsQuestion :=
  { qtype := .essay, options := [], correctAnswers := [], marks := 10, negativeMarks := 2 }

/-- A single-attempt exam with no retakes, available at time 10. -/
def examC8 : JsExam :=
  { duration := 60, availableFrom := 0, availableTo := 100, passMark := 60,
    maxAttempts := 1, allowRetakes := false, showResults := false }

/-- A prior attempt of this student that ended in the terminal status
abandoned. -/
def attC8 : JsAttempt :=
  { id := 4, student := 7, exam := 3, answers := [], startedAt := 0,
    submittedAt := none, timeRemaining := 0, totalScore := 0, maxPossibleScore := 0,
    percentage := 0, passed := false, status := .abandoned }

/-- A TS attempt that ended in the terminal status terminated. -/
def tsAttC8 : TsAttempt :=
  { status := .terminated, startTime := 0, endTime := none, submittedAt := none,
    timeTaken := 0, score := 0, percentage := 0, totalMarks := 10, passed := false,
    answers := [] }

/-- A TS attempt with one zero-mark answer, zero percentage, on an exam whose
pass mark is 0. -/
def attC10 : TsAttempt :=
  { status := .submitted, startTime := 0, endTime := none, submittedAt := none,
    timeTaken := 0, score := 3, percentage := 20, totalMarks := 5, passed := false,
    answers := [{ questionId := 1, answer := .str "x", isCorrect := false,
                  marksAwarded := 0, timeTaken := 1, isFlagged := false, isReviewed := false }] }

/-- The exam reference with pass mark 0 used for the C10 witness. -/
def examRefC10 : TsExamRef :=
  { passMark := 0, duration := 60 }

/-- A TS attempt with no answers, zero stored percentage, not passed. -/
def attC10e : TsAttempt :=
  { status := .submitted, startTime := 0, endTime := none, submittedAt := none,
    timeTaken := 0, score := 0, percentage := 0, totalMarks := 5, passed := false,
    answers := [] }

/-- The answer record produced by saving a correct response to `qC3`. -/
def ansC9 : JsAnswer :=
  { question := 5, questionDoc := none, studentAnswer := .bool true, isCorrect := some true,
    manuallyGraded := false, scoreAwarded := 2, timeSpent := 3, teacherFeedback := none }

/-- The attempt state after one save of that answer on `attC3`. -/
def attC9 : JsAttempt :=
  { attC3 with answers := [ansC9] }



/-! Claim C5: marks awarded for an answer. -/

/-- C5 counterexample: the exam-level negative-marking toggle is off, yet the
code awards minus the question-level negative marks for an incorrect answer
(the spec-modelled function awards 0 there). -/
theorem C5_counterexample :
    TsQuestion.calculateMarks qC5 (AnswerValue.str "B") = -2
    ∧ spec_marksAwarded false qC5 (AnswerValue.str "B") = 0 := by
  constructor <;> decide

/-- C5 (amended): the marks awarded are question.marks when correct, minus
question.negativeMarks when incorrect and the question carries positive
negative marks, and 0 otherwise; the decision is keyed on the question-level
negativeMarks value, never on an exam-level negative-marking setting. -/
theorem C5_marks_keyed_on_question (q : TsQuestion) (a : AnswerValue) :
    q.calculateMarks a = spec_marksAwarded (decide (0 < q.negativeMarks)) q a := by
  unfold TsQuestion.calculateMarks spec_marksAwarded
  by_cases h : q.isCorrect a = true
  · simp [h]
  · by_cases h2 : 0 < q.negativeMarks <;> simp [h, h2]

/-! Claim C6: short-answer normalization. -/

/-- C6 counterexample: a submission differing from the accepted answer only in
a doubled internal space is judged incorrect by the TS evaluator, although
under the claimed normalization (whitespace collapsed) it matches. -/
theorem C6_counterexample :
    TsQuestion.isCorrect qC6 (AnswerValue.str "a  b") = false
    ∧ spec_shortAnswerCorrect qC6.correctAnswers "a  b" = true := by
  constructor <;> decide

/-- C6 (amended): the JS-model validateAnswer decides short answers exactly by
the fully normalized comparison the claim states (lowercase, trim, collapse
internal whitespace, any accepted string); the TS-model isCorrect instead
compares only lowercased and trimmed text, with no whitespace collapsing, and
rejects the empty submission. -/
theorem C6_short_answer_normalization (q : TsQuestion) (hq : q.qtype = TsQType.short_answer)
    (s : String) (qj : JsQuestion) (hj : qj.qtype = JsQType.short_answer)
    (cs : List String) (hca : qj.correctAnswer = AnswerValue.strs cs) :
    q.isCorrect (AnswerValue.str s)
      = (decide (s ≠ "") && q.correctAnswers.any (fun c => jsLowerTrim s == jsLowerTrim c))
    ∧ qj.validateAnswer (AnswerValue.str s) = spec_shortAnswerCorrect cs s := by
  constructor
  · unfold TsQuestion.isCorrect
    rw [hq]
    by_cases h : s = "" <;> simp [h]
  · unfold JsQuestion.validateAnswer
    rw [hj, hca]
    simp [spec_shortAnswerCorrect, jsString]

/-- C6 witness: the amended statement at the concrete short-answer fixtures. -/
theorem C6_short_answer_normalization_witness :
    (TsQuestion.isCorrect qC6 (AnswerValue.str "A b")
      = (decide (("A b" : String) ≠ "")
          && qC6.correctAnswers.any (fun c => jsLowerTrim "A b" == jsLowerTrim c)))
    ∧ qjC6.validateAnswer (AnswerValue.str "A b") = spec_shortAnswerCorrect ["a b"] "A b" :=
  C6_short_answer_normalization qC6 rfl "A b" qjC6 rfl ["a b"] rfl

/-! Claim C7: automatic evaluation of essays. -/

/-- C7 counterexample: an essay question with positive negative marks is
auto-evaluated to isCorrect false (a Boolean, not null) and marksAwarded -2,
not 0. -/
theorem C7_counterexample :
    TsQuestion.isCorrect qC7 (AnswerValue.str "essay text") = false
    ∧ TsQuestion.calculateMarks qC7 (AnswerValue.str "essay text") = -2 := by
  constructor <;> decide

/-- C7 (amended): automatic evaluation of an essay always yields
isCorrect = false (the TS answer schema stores a Boolean and has no null
state), and marksAwarded is 0 only when the question carries no negative
marks; with positive question-level negative marks the essay is penalized by
minus that value. -/
theorem C7_essay_auto_eval (q : TsQuestion) (h : q.qtype = TsQType.essay) (a : AnswerValue) :
    q.isCorrect a = false
    ∧ q.calculateMarks a = (if 0 < q.negativeMarks then -q.negativeMarks else 0)
    ∧ (q.negativeMarks = 0 → q.calculateMarks a = 0) := by
  have hic : q.isCorrect a = false := by
    unfold TsQuestion.isCorrect
    rw [h]
  refine ⟨hic, ?_, ?_⟩
  · unfold TsQuestion.calculateMarks
    rw [hic]
    simp
  · intro h0
    unfold TsQuestion.calculateMarks
    rw [hic]
    simp [h0]

/-- C7 witness: the amended statement at the essay fixture. -/
theorem C7_essay_auto_eval_witness :
    TsQuestion.isCorrect qC7 (AnswerValue.str "t") = false
    ∧ TsQuestion.calculateMarks qC7 (AnswerValue.str "t")
        = (if 0 < qC7.negativeMarks then -qC7.negativeMarks else 0)
    ∧ (qC7.negativeMarks = 0 → TsQuestion.calculateMarks qC7 (AnswerValue.str "t") = 0) :=
  C7_essay_auto_eval qC7 rfl (AnswerValue.str "t")



/-! Helper lemmas about the answer upsert of the save-answer route. -/

/-- Replacing twice with the same record is the same as replacing once. -/
theorem upsertAnswer_self_idem (d : JsAnswer) (l : List JsAnswer) :
    upsertAnswer d (upsertAnswer d l) = upsertAnswer d l := by
  induction l with
  | nil => simp [upsertAnswer]
  | cons a rest ih =>
    by_cases h : a.question = d.question
    · simp [upsertAnswer, h]
    · simp [upsertAnswer, h, ih]

/-- The upsert yields exactly one record for the question when there was none,
and keeps the count unchanged otherwise. -/
theorem countForQuestion_upsert (qid : Nat) (d : JsAnswer) (hd : d.question = qid)
    (l : List JsAnswer) :
    countForQuestion qid (upsertAnswer d l)
      = if countForQuestion qid l = 0 then 1
        else countForQuestion qid l := by
  subst hd
  induction l with
  | nil => simp [upsertAnswer, countForQuestion]
  | cons a rest ih =>
    by_cases h : a.question = d.question
    · simp [upsertAnswer, countForQuestion, h]
    · have hpa : (a.question == d.question) = false := by simp [h]
      simp only [upsertAnswer, if_neg h, countForQuestion, List.filter_cons, hpa,
        Bool.false_eq_true, if_false]
      simpa only [countForQuestion] using ih

/-! Claim C9: idempotence of saveAnswer. -/

/-- C9: calling saveAnswer a second time with identical arguments (same
attempt, same questionId, same value) returns the same attempt state and the
same response as the first call, and the attempt holds exactly one answer
record for that questionId; since the stored state is identical, every later
submission computes the same score as after a single call. -/
theorem C9_saveAnswer_idempotent (qbank : List JsQuestion) (att : JsAttempt)
    (questionId : Nat) (answer : AnswerValue) (timeSpent : ℚ)
    (att1 : JsAttempt) (c1 : Bool) (s1 : ℚ)
    (h1 : saveAnswerRoute qbank att questionId answer timeSpent = Except.ok (att1, c1, s1))
    (hcount : countForQuestion questionId att.answers ≤ 1) :
    saveAnswerRoute qbank att1 questionId answer timeSpent = Except.ok (att1, c1, s1)
    ∧ countForQuestion questionId att1.answers = 1 := by
  unfold saveAnswerRoute at h1 ⊢
  by_cases hst : att.status = JsStatus.in_progress
  case neg => simp [hst] at h1
  cases hfq : qbank.find? (fun q => q.id == questionId) with
  | none => rw [hfq] at h1; simp [hst] at h1
  | some q =>
    rw [hfq] at h1
    simp only [hst, ne_eq, not_true_eq_false, if_false, Except.ok.injEq, Prod.mk.injEq] at h1
    obtain ⟨ha, hc, hs⟩ := h1
    subst ha
    subst hc
    subst hs
    refine ⟨?_, ?_⟩
    · simp [upsertAnswer_self_idem]
    · rw [countForQuestion_upsert questionId _ rfl]
      rcases Nat.eq_zero_or_pos (countForQuestion questionId att.answers) with h0 | hpos
      · simp [h0]
      · have h1c : countForQuestion questionId att.answers = 1 :=
          le_antisymm hcount hpos
        simp [h1c]

/-- C9 witness: one save of a correct true/false answer on a fresh attempt,
repeated with identical arguments. -/
theorem C9_saveAnswer_idempotent_witness :
    saveAnswerRoute [qC3] attC9 5 (AnswerValue.bool true) 3 = Except.ok (attC9, true, 2)
    ∧ countForQuestion 5 attC9.answers = 1 :=
  C9_saveAnswer_idempotent [qC3] attC3 5 (AnswerValue.bool true) 3 attC9 true 2 rfl
    (by decide)

/-! Helper lemmas about the four steps of the TS pre-save hook. -/

/-- Step 1 of the hook changes only timeTaken. -/
theorem preSaveTime_keeps (att : TsAttempt) :
    (preSaveTime att).answers = att.answers ∧ (preSaveTime att).score = att.score
    ∧ (preSaveTime att).percentage = att.percentage ∧ (preSaveTime att).passed = att.passed
    ∧ (preSaveTime att).totalMarks = att.totalMarks ∧ (preSaveTime att).status = att.status := by
  cases h : att.endTime <;> simp [preSaveTime, h]

/-- Step 2 of the hook changes only score and percentage. -/
theorem preSaveScore_keeps (att : TsAttempt) :
    (preSaveScore att).answers = att.answers ∧ (preSaveScore att).passed = att.passed
    ∧ (preSaveScore att).totalMarks = att.totalMarks ∧ (preSaveScore att).status = att.status := by
  by_cases h : att.answers = [] <;> simp [preSaveScore, h]

/-- Step 2 of the hook leaves score and percentage alone on an empty answers
array. -/
theorem preSaveScore_empty (att : TsAttempt) (h : att.answers = []) :
    preSaveScore att = att := by
  simp [preSaveScore, h]

/-- Step 2 of the hook on a non-empty answers array: recomputed score, then
percentage from the recomputed score. -/
theorem preSaveScore_recompute (att : TsAttempt) (h : att.answers ≠ []) :
    (preSaveScore att).score = calculateScore att
    ∧ (preSaveScore att).percentage
      = (if att.totalMarks = 0 then 0
         else (jsRound (calculateScore att / att.totalMarks * 100) : ℚ)) := by
  simp [preSaveScore, h, calculatePercentage]

/-- Step 3 of the hook changes only passed. -/
theorem preSavePassed_keeps (exam : Option TsExamRef) (att : TsAttempt) :
    (preSavePassed exam att).answers = att.answers ∧ (preSavePassed exam att).score = att.score
    ∧ (preSavePassed exam att).percentage = att.percentage
    ∧ (preSavePassed exam att).status = att.status := by
  by_cases h : 0 < att.percentage <;> simp [preSavePassed, h]

/-- The passed flag written by step 3 of the hook. -/
theorem preSavePassed_passed (exam : Option TsExamRef) (att : TsAttempt) :
    (preSavePassed exam att).passed
      = if 0 < att.percentage then decide (passMarkOf exam ≤ att.percentage) else att.passed := by
  by_cases h : 0 < att.percentage <;> simp [preSavePassed, isPassed, h]

/-- Step 4 of the hook changes only submittedAt and endTime. -/
theorem preSaveSubmitted_keeps (now : ℤ) (att : TsAttempt) :
    (preSaveSubmitted now att).answers = att.answers
    ∧ (preSaveSubmitted now att).score = att.score
    ∧ (preSaveSubmitted now att).percentage = att.percentage
    ∧ (preSaveSubmitted now att).passed = att.passed := by
  unfold preSaveSubmitted
  split_ifs <;> cases he : att.endTime <;> simp [he]

/-- The score summed by calculateScore depends only on the answers array. -/
theorem calculateScore_congr (a b : TsAttempt) (h : a.answers = b.answers) :
    calculateScore a = calculateScore b := by
  unfold calculateScore
  rw [h]

/-! Claim C10: the guards of the pre-save hook. -/

/-- C10: the pre-save hook recomputes score and percentage only when the
answers array is non-empty, recomputes the passed flag only when the resulting
percentage is strictly positive, and therefore an attempt whose final
percentage is 0 (or negative) keeps its previous passed value, regardless of
the pass mark (in particular when the pass mark is 0). -/
theorem C10_presave_guards (exam : Option TsExamRef) (now : ℤ) (att : TsAttempt) :
    (att.answers = [] →
      (preSave exam now att).score = att.score
      ∧ (preSave exam now att).percentage = att.percentage)
    ∧ (att.answers ≠ [] →
      (preSave exam now att).score = calculateScore att
      ∧ (preSave exam now att).percentage
          = (if att.totalMarks = 0 then 0
             else (jsRound (calculateScore att / att.totalMarks * 100) : ℚ)))
    ∧ ((preSave exam now att).percentage ≤ 0 →
        (preSave exam now att).passed = att.passed)
    ∧ (0 < (preSave exam now att).percentage →
        (preSave exam now att).passed
          = decide (passMarkOf exam ≤ (preSave exam now att).percentage)) := by
  obtain ⟨t1ans, t1sc, t1pct, t1pass, t1tm, t1st⟩ := preSaveTime_keeps att
  obtain ⟨t2ans, t2pass, t2tm, t2st⟩ := preSaveScore_keeps (preSaveTime att)
  obtain ⟨t3ans, t3sc, t3pct, t3st⟩ :=
    preSavePassed_keeps exam (preSaveScore (preSaveTime att))
  obtain ⟨t4ans, t4sc, t4pct, t4pass⟩ :=
    preSaveSubmitted_keeps now (preSavePassed exam (preSaveScore (preSaveTime att)))
  have hsc : (preSave exam now att).score = (preSaveScore (preSaveTime att)).score := by
    rw [preSave, t4sc, t3sc]
  have hpct : (preSave exam now att).percentage
      = (preSaveScore (preSaveTime att)).percentage := by
    rw [preSave, t4pct, t3pct]
  have hpass : (preSave exam now att).passed
      = (preSavePassed exam (preSaveScore (preSaveTime att))).passed := by
    rw [preSave, t4pass]
  refine ⟨?_, ?_, ?_, ?_⟩
  · intro h
    have h1 : (preSaveTime att).answers = [] := by rw [t1ans, h]
    rw [hsc, hpct, preSaveScore_empty _ h1, t1sc, t1pct]
    exact ⟨rfl, rfl⟩
  · intro h
    have h1 : (preSaveTime att).answers ≠ [] := by rw [t1ans]; exact h
    obtain ⟨hs, hp⟩ := preSaveScore_recompute (preSaveTime att) h1
    have hcs : calculateScore (preSaveTime att) = calculateScore att :=
      calculateScore_congr _ _ t1ans
    rw [hsc, hpct, hs, hp, hcs, t1tm]
    exact ⟨rfl, rfl⟩
  · intro h
    rw [hpct] at h
    rw [hpass, preSavePassed_passed, if_neg (by exact not_lt.mpr h), t2pass, t1pass]
  · intro h
    rw [hpct] at h
    rw [hpass, preSavePassed_passed, if_pos h, hpct]

/-- C10 witness: a submitted attempt with empty answers, stored percentage 0
and pass mark 0 keeps passed = false through the hook; a non-empty attempt
gets its score recomputed. -/
theorem C10_presave_guards_witness :
    (preSave (some examRefC10) 99 attC10e).passed = attC10e.passed
    ∧ (preSave (some examRefC10) 99 attC10).score = calculateScore attC10 := by
  constructor
  · refine (C10_presave_guards (some examRefC10) 99 attC10e).2.2.1 ?_
    rw [((C10_presave_guards (some examRefC10) 99 attC10e).1 rfl).2]
    decide
  · exact ((C10_presave_guards (some examRefC10) 99 attC10).2.1 (by decide)).1



/-- Rounding zero to two decimals gives zero. -/
theorem round2_zero : round2 0 = 0 := by
  norm_num [round2, jsRound, Rat.floor]

/-! Helper lemmas about the attempt pre-save hook on the submit path. -/

/-- With no populated question documents, the maximum summed by
calculateScores collapses to the accumulator. -/
theorem scoresMaxPossible_foldl_unpopulated (l : List JsAnswer)
    (h : ∀ a ∈ l, a.questionDoc = none) (acc : ℚ) :
    l.foldl (fun acc a => acc + ((a.questionDoc.map (fun q => q.points)).getD 0)) acc
      = acc := by
  induction l generalizing acc with
  | nil => rfl
  | cons a rest ih =>
    have ha : a.questionDoc = none := h a (by simp)
    have hr : ∀ x ∈ rest, x.questionDoc = none := fun x hx => h x (by simp [hx])
    simp only [List.foldl_cons, ha]
    simpa using ih hr acc

/-- scoresMaxPossible of unpopulated answers is zero. -/
theorem scoresMaxPossible_unpopulated (l : List JsAnswer)
    (h : ∀ a ∈ l, a.questionDoc = none) : scoresMaxPossible l = 0 :=
  scoresMaxPossible_foldl_unpopulated l h 0

/-- The submit loop rewrite of an answer does not touch its population
state. -/
theorem submitUpdatedAnswer_questionDoc (qbank : List JsQuestion) (a : JsAnswer) :
    (submitUpdatedAnswer qbank a).questionDoc = a.questionDoc := by
  unfold submitUpdatedAnswer
  cases qbank.find? (fun q => q.id == a.question) with
  | none => rfl
  | some q =>
    by_cases hq : (q.qtype == JsQType.short_answer && !a.manuallyGraded) = true <;> simp [hq]

/-- The hook is skipped for empty answers or an in-progress status. -/
theorem attemptPreSave_skip (exam : Option JsExam) (att : JsAttempt)
    (h : att.answers = [] ∨ att.status = JsStatus.in_progress) :
    attemptPreSave exam att = att := by
  unfold attemptPreSave
  rcases h with h | h
  · rw [if_neg (fun hc => hc.1 h)]
  · rw [if_neg (fun hc => hc.2 h)]

/-- The hook on a no-longer-in-progress attempt whose answers carry no
populated question documents: the maximum collapses to 0, hence the stored
percentage is 0 and the stored passed flag compares the pass mark against
zero. -/
theorem attemptPreSave_unpopulated (exam : JsExam) (att : JsAttempt)
    (hst : att.status ≠ JsStatus.in_progress) (hne : att.answers ≠ [])
    (hpop : ∀ a ∈ att.answers, a.questionDoc = none) :
    (attemptPreSave (some exam) att).percentage = 0
    ∧ (attemptPreSave (some exam) att).maxPossibleScore = 0
    ∧ (attemptPreSave (some exam) att).passed
        = decide (jsPassMarkOr60 (some exam) ≤ 0) := by
  unfold attemptPreSave
  rw [if_pos ⟨hne, hst⟩]
  unfold calculateScores
  have hmax : scoresMaxPossible att.answers = 0 := scoresMaxPossible_unpopulated _ hpop
  simp [hmax]

/-- A schema-legal (nonnegative) pass mark never lets a zero percentage pass
through the falsy-0-to-60 fallback. -/
theorem jsPassMarkOr60_pos (exam : JsExam) (h : 0 ≤ exam.passMark) :
    ¬ jsPassMarkOr60 (some exam) ≤ 0 := by
  show ¬ (if exam.passMark = 0 then (60 : ℚ) else exam.passMark) ≤ 0
  by_cases h0 : exam.passMark = 0
  · rw [if_pos h0]
    norm_num
  · rw [if_neg h0]
    exact not_le.mpr (lt_of_le_of_ne h (Ne.symm h0))

/-- The status the submit route writes is never in-progress. -/
theorem submitStatus_ne_in_progress (e : JsExam) :
    (if e.showResults = true then JsStatus.graded else JsStatus.submitted)
      ≠ JsStatus.in_progress := by
  by_cases h : e.showResults = true <;> simp [h]

/-- The raw percentage of an attempt with no answers is zero. -/
theorem submitRawPercentage_empty (qbank : List JsQuestion) (att : JsAttempt)
    (h : att.answers = []) : submitRawPercentage qbank att = 0 := by
  unfold submitRawPercentage submitTotalScore
  rw [h]
  simp

/-! Claim C1: which pass mark decides the stored passed flag. -/

/-- C1 counterexample: the attempt scores 5 of 10 (raw 50 percent) and the
pass mark at start time was 50, so under the claim the stored flag is true;
but the code stores passed = false and percentage = 0, because after the
submit route assigns its figures the attempt pre-save hook recomputes both
over the unpopulated answers (maxPossibleScore collapses to 0). -/
theorem C1_counterexample :
    ((submitAttemptRoute [qC1a, qC1b] examSubmitC1 attC1 99 0).map
      (fun r => (r.1.passed, r.1.percentage))) = Except.ok (false, 0)
    ∧ spec_percentage 5 10 = 50
    ∧ examStartC1.passMark ≤ 50 := by
  refine ⟨?_, ?_, ?_⟩
  · simp +decide [submitAttemptRoute, submitAssigned, submitRawPercentage,
      submitMaxPossibleScore, submitTotalScore, submitUpdatedAnswer, attemptPreSave,
      calculateScores, scoresTotal, scoresMaxPossible, jsPassMarkOr60, qC1a, qC1b, attC1,
      examSubmitC1, ansC1a, ansC1b, Except.map]
  · norm_num [spec_percentage, round2, jsRound, Rat.floor]
  · norm_num [examStartC1]

/-- C1 (amended): no pass-mark snapshot exists on the attempt.  The submit
route computes a transient passed flag by comparing the raw percentage with
the pass mark of the exam document populated at submit time (a live read) and
returns that flag in the response; but the attempt pre-save hook then
recomputes the stored flag over the unpopulated answers: with at least one
answer the stored maxPossibleScore and percentage become 0 and the stored
passed becomes the comparison of exam.passMark || 60 against 0, false for
every schema-legal (nonnegative) pass mark; only an attempt submitted with no
answers stores the live comparison.  The TS isPassed likewise reads the
populated exam live, turning even a pass mark of 0 into the default 50. -/
theorem C1_passed_live_read (qbank : List JsQuestion) (exam : JsExam) (att : JsAttempt)
    (now : ℤ) (tr : ℚ) (hst : att.status = JsStatus.in_progress)
    (hpop : ∀ a ∈ att.answers, a.questionDoc = none) :
    (att.answers ≠ [] →
      (submitAttemptRoute qbank exam att now tr).map
          (fun r => (r.1.percentage, r.1.maxPossibleScore))
        = Except.ok (0, 0))
    ∧ (att.answers ≠ [] → 0 ≤ exam.passMark →
      (submitAttemptRoute qbank exam att now tr).map (fun r => r.1.passed)
        = Except.ok false)
    ∧ (att.answers = [] →
      (submitAttemptRoute qbank exam att now tr).map (fun r => r.1.passed)
        = Except.ok (decide (exam.passMark ≤ submitRawPercentage qbank att)))
    ∧ (submitAttemptRoute qbank exam att now tr).map (fun r => r.2.passed)
        = Except.ok (decide (exam.passMark ≤ submitRawPercentage qbank att))
    ∧ (∀ d : ℚ, passMarkOf (some { passMark := 0, duration := d }) = 50) := by
  have hst2 : (submitAssigned qbank exam att now tr).status ≠ JsStatus.in_progress :=
    submitStatus_ne_in_progress exam
  have hansEq : (submitAssigned qbank exam att now tr).answers
      = att.answers.map (fun a => submitUpdatedAnswer qbank a) := rfl
  have hpop2 : ∀ a ∈ (submitAssigned qbank exam att now tr).answers, a.questionDoc = none := by
    rw [hansEq]
    intro a ha
    obtain ⟨x, hx, rfl⟩ := List.mem_map.mp ha
    rw [submitUpdatedAnswer_questionDoc]
    exact hpop x hx
  have hroute : submitAttemptRoute qbank exam att now tr
      = Except.ok (attemptPreSave (some exam) (submitAssigned qbank exam att now tr),
          { totalScore := submitTotalScore qbank att.answers,
            maxPossibleScore := submitMaxPossibleScore qbank att.exam,
            percentage :=
              (attemptPreSave (some exam) (submitAssigned qbank exam att now tr)).percentage,
            passed := decide (exam.passMark ≤ submitRawPercentage qbank att) }) := by
    unfold submitAttemptRoute
    rw [if_neg (by simp [hst])]
  refine ⟨?_, ?_, ?_, ?_, fun d => by simp [passMarkOf]⟩
  · intro hne
    have hne2 : (submitAssigned qbank exam att now tr).answers ≠ [] := by
      rw [hansEq]
      simpa using hne
    obtain ⟨hp, hm, hps⟩ := attemptPreSave_unpopulated exam _ hst2 hne2 hpop2
    rw [hroute]
    simp [Except.map, hp, hm]
  · intro hne hpm
    have hne2 : (submitAssigned qbank exam att now tr).answers ≠ [] := by
      rw [hansEq]
      simpa using hne
    obtain ⟨hp, hm, hps⟩ := attemptPreSave_unpopulated exam _ hst2 hne2 hpop2
    rw [hroute]
    simp [Except.map, hps, decide_eq_false (jsPassMarkOr60_pos exam hpm)]
  · intro hemp
    have hskip : attemptPreSave (some exam) (submitAssigned qbank exam att now tr)
        = submitAssigned qbank exam att now tr := by
      refine attemptPreSave_skip _ _ (Or.inl ?_)
      rw [hansEq, hemp]
      rfl
    rw [hroute, hskip]
    simp [Except.map]
    rfl
  · rw [hroute]
    simp [Except.map]

/-- C1 witness: at the concrete submission with two answered questions the
stored flag is false. -/
theorem C1_passed_live_read_witness :
    (submitAttemptRoute [qC1a, qC1b] examSubmitC1 attC1 99 0).map (fun r => r.1.passed)
      = Except.ok false :=
  (C1_passed_live_read [qC1a, qC1b] examSubmitC1 attC1 99 0 rfl (by decide)).2.1
    (by decide) (by decide)

/-! Claim C2: how the percentage is rounded and what is stored. -/

/-- C2 counterexample: with score 1 of totalMarks 3, calculatePercentage of
the TS attempt model returns the integer 33, not the two-decimal 33.33 the
claim states. -/
theorem C2_counterexample :
    calculatePercentage attC2 = 33
    ∧ spec_percentage attC2.score attC2.totalMarks = 3333/100
    ∧ (33 : ℚ) ≠ 3333/100 := by
  refine ⟨?_, ?_, by norm_num⟩
  · norm_num [calculatePercentage, attC2, jsRound, Rat.floor]
  · norm_num [spec_percentage, attC2, round2, jsRound, Rat.floor]

/-- C2 (amended): no percentage computation divides by zero (each site guards
the zero denominator), but neither cited site stores the claimed two-decimal
value: calculatePercentage of the TS attempt model rounds to the nearest
integer, so its value is always integral (0 when totalMarks is 0); and while
the submit route computes the two-decimal rounding of the raw percentage and
assigns it to the document, the attempt pre-save hook recomputes the stored
percentage over the unpopulated answers, so the attempt this route saves and
returns carries percentage 0 on every submission. -/
theorem C2_percentage_two_roundings (qbank : List JsQuestion) (exam : JsExam)
    (att : JsAttempt) (now : ℤ) (tr : ℚ) (hst : att.status = JsStatus.in_progress)
    (hpop : ∀ a ∈ att.answers, a.questionDoc = none) :
    (submitAttemptRoute qbank exam att now tr).map (fun r => r.1.percentage)
      = Except.ok 0
    ∧ (submitAttemptRoute qbank exam att now tr).map (fun r => r.2.percentage)
      = Except.ok 0
    ∧ round2 (submitRawPercentage qbank att)
        = spec_percentage (submitTotalScore qbank att.answers)
            (submitMaxPossibleScore qbank att.exam)
    ∧ (∀ s : TsAttempt, s.totalMarks = 0 → calculatePercentage s = 0)
    ∧ (∀ s : TsAttempt, ∃ n : ℤ, calculatePercentage s = (n : ℚ)) := by
  have hst2 : (submitAssigned qbank exam att now tr).status ≠ JsStatus.in_progress :=
    submitStatus_ne_in_progress exam
  have hansEq : (submitAssigned qbank exam att now tr).answers
      = att.answers.map (fun a => submitUpdatedAnswer qbank a) := rfl
  have hpop2 : ∀ a ∈ (submitAssigned qbank exam att now tr).answers, a.questionDoc = none := by
    rw [hansEq]
    intro a ha
    obtain ⟨x, hx, rfl⟩ := List.mem_map.mp ha
    rw [submitUpdatedAnswer_questionDoc]
    exact hpop x hx
  have hroute : submitAttemptRoute qbank exam att now tr
      = Except.ok (attemptPreSave (some exam) (submitAssigned qbank exam att now tr),
          { totalScore := submitTotalScore qbank att.answers,
            maxPossibleScore := submitMaxPossibleScore qbank att.exam,
            percentage :=
              (attemptPreSave (some exam) (submitAssigned qbank exam att now tr)).percentage,
            passed := decide (exam.passMark ≤ submitRawPercentage qbank att) }) := by
    unfold submitAttemptRoute
    rw [if_neg (by simp [hst])]
  have hstored : (attemptPreSave (some exam) (submitAssigned qbank exam att now tr)).percentage
      = 0 := by
    by_cases hemp : att.answers = []
    · have hskip : attemptPreSave (some exam) (submitAssigned qbank exam att now tr)
          = submitAssigned qbank exam att now tr := by
        refine attemptPreSave_skip _ _ (Or.inl ?_)
        rw [hansEq, hemp]
        rfl
      rw [hskip]
      show round2 (submitRawPercentage qbank att) = 0
      rw [submitRawPercentage_empty qbank att hemp, round2_zero]
    · have hne2 : (submitAssigned qbank exam att now tr).answers ≠ [] := by
        rw [hansEq]
        simpa using hemp
      exact (attemptPreSave_unpopulated exam _ hst2 hne2 hpop2).1
  refine ⟨?_, ?_, ?_, ?_, ?_⟩
  · rw [hroute]
    simp [Except.map, hstored]
  · rw [hroute]
    simp [Except.map, hstored]
  · unfold submitRawPercentage spec_percentage
    by_cases hm : 0 < submitMaxPossibleScore qbank att.exam
    · simp [hm]
    · simp [hm, round2_zero]
  · intro s h
    simp [calculatePercentage, h]
  · intro s
    by_cases h : s.totalMarks = 0
    · exact ⟨0, by simp [calculatePercentage, h]⟩
    · exact ⟨jsRound (s.score / s.totalMarks * 100), by simp [calculatePercentage, h]⟩

/-- C2 witness: the stored percentage at the concrete submission is 0. -/
theorem C2_percentage_two_roundings_witness :
    (submitAttemptRoute [qC1a, qC1b] examSubmitC1 attC1 99 0).map (fun r => r.1.percentage)
      = Except.ok 0 :=
  (C2_percentage_two_roundings [qC1a, qC1b] examSubmitC1 attC1 99 0 rfl (by decide)).1

/-! Claim C3: no time-budget check on answer writes. -/

/-- C3 counterexample: at time 1000, far past the 60-second budget of the
one-minute exam, the save-answer route still accepts the write and leaves the
attempt in progress; there is no ATTEMPT_EXPIRED rejection and no auto-submit
anywhere in the route. -/
theorem C3_counterexample :
    spec_saveAllowed examC3 attC3 1000 = false
    ∧ ((saveAnswerRoute [qC3] attC3 5 (AnswerValue.bool true) 3).map (fun r => r.1.status))
        = Except.ok JsStatus.in_progress := by
  constructor
  · norm_num [spec_saveAllowed, spec_timeBudgetSeconds, examC3, attC3]
  · rfl

/-- C3 (amended): a save-answer write is accepted exactly when the attempt
row exists for the student with status in_progress and the question exists;
elapsed time is never consulted, and a successful write never changes the
attempt status (no auto-submit is triggered). -/
theorem C3_no_expiry_check (qbank : List JsQuestion) (att : JsAttempt) (questionId : Nat)
    (answer : AnswerValue) (timeSpent : ℚ) :
    ((∃ r, saveAnswerRoute qbank att questionId answer timeSpent = Except.ok r) ↔
      (att.status = JsStatus.in_progress
        ∧ (qbank.find? (fun q => q.id == questionId)).isSome = true))
    ∧ (∀ att1 c s,
        saveAnswerRoute qbank att questionId answer timeSpent = Except.ok (att1, c, s) →
        att1.status = att.status ∧ att1.startedAt = att.startedAt) := by
  constructor
  · constructor
    · rintro ⟨r, hr⟩
      unfold saveAnswerRoute at hr
      by_cases hst : att.status = JsStatus.in_progress
      · refine ⟨hst, ?_⟩
        cases hfq : qbank.find? (fun q => q.id == questionId) with
        | none => rw [hfq] at hr; simp [hst] at hr
        | some q => simp [hfq]
      · simp [hst] at hr
    · rintro ⟨hst, hfq⟩
      unfold saveAnswerRoute
      cases hq : qbank.find? (fun q => q.id == questionId) with
      | none => rw [hq] at hfq; simp at hfq
      | some q => exact ⟨_, by rw [if_neg (by simp [hst])]⟩
  · intro att1 c s h
    unfold saveAnswerRoute at h
    by_cases hst : att.status = JsStatus.in_progress
    · cases hfq : qbank.find? (fun q => q.id == questionId) with
      | none => rw [hfq] at h; simp [hst] at h
      | some q =>
        rw [hfq] at h
        simp only [hst, ne_eq, not_true_eq_false, if_false, Except.ok.injEq,
          Prod.mk.injEq] at h
        obtain ⟨ha, hc, hs⟩ := h
        subst ha
        exact ⟨hst.symm, rfl⟩
    · simp [hst] at h

/-- C3 witness: the acceptance condition holds at the concrete fixture. -/
theorem C3_no_expiry_check_witness :
    ∃ r, saveAnswerRoute [qC3] attC3 5 (AnswerValue.bool true) 3 = Except.ok r :=
  (C3_no_expiry_check [qC3] attC3 5 (AnswerValue.bool true) 3).1.mpr ⟨rfl, by decide⟩

/-! Claim C4: uniqueness of in-progress attempts and idempotence of start. -/

/-- C4 counterexample: with one in-progress attempt already stored, the start
route creates a second attempt (two in-progress attempts coexist) and returns
the new record, not the existing one. -/
theorem C4_counterexample :
    ((startExamRoute examC4 [attC4] 10 2 7 3).map
        (fun p => ((p.1.filter (fun a => a.status == JsStatus.in_progress)).length,
                   p.2.id == attC4.id)))
      = Except.ok (2, false) := by
  rfl

/-- C4 (amended): whenever the policy check passes, the start route appends a
brand-new in-progress attempt and returns it; an existing in-progress attempt
neither blocks the check nor is returned, because canUserTakeExam does not
count in-progress attempts at all. -/
theorem C4_start_creates_new (e : JsExam) (atts : List JsAttempt) (now : ℤ)
    (newId student exam : Nat)
    (hallow : (e.canUserTakeExam now atts).canTake = true) :
    startExamRoute e atts now newId student exam
      = Except.ok (atts ++ [newAttempt newId student exam now], newAttempt newId student exam now)
    ∧ (newAttempt newId student exam now).status = JsStatus.in_progress
    ∧ (∀ a : JsAttempt, a.status = JsStatus.in_progress →
        e.canUserTakeExam now (a :: atts) = e.canUserTakeExam now atts) := by
  refine ⟨?_, rfl, ?_⟩
  · unfold startExamRoute
    simp [hallow]
  · intro a ha
    unfold JsExam.canUserTakeExam
    by_cases hav : e.isAvailable now = true
    · have hpred : (a.status == JsStatus.submitted || a.status == JsStatus.graded) = false := by
        simp [ha]
      simp [hav, List.filter_cons, hpred]
    · simp [hav]

/-- C4 witness: the amended statement at the concrete fixtures. -/
theorem C4_start_creates_new_witness :
    startExamRoute examC4 [attC4] 10 2 7 3
      = Except.ok ([attC4] ++ [newAttempt 2 7 3 10], newAttempt 2 7 3 10)
    ∧ (newAttempt 2 7 3 10).status = JsStatus.in_progress
    ∧ (∀ a : JsAttempt, a.status = JsStatus.in_progress →
        examC4.canUserTakeExam 10 (a :: [attC4]) = examC4.canUserTakeExam 10 [attC4]) :=
  C4_start_creates_new examC4 [attC4] 10 2 7 3 (by decide)

/-! Claim C8: which attempts count against maxAttempts. -/

/-- C8 counterexample: one prior attempt in the terminal status abandoned, a
limit of one attempt and no retakes: under the claim the student must be
refused, yet canUserTakeExam counts only submitted and graded attempts and
allows the start. -/
theorem C8_counterexample :
    spec_terminalCount [attC8] = 1
    ∧ examC8.maxAttempts = 1
    ∧ examC8.allowRetakes = false
    ∧ examC8.isAvailable 10 = true
    ∧ (examC8.canUserTakeExam 10 [attC8]).canTake = true := by
  refine ⟨by decide, by decide, by decide, by decide, by decide⟩

/-- C8 (amended): on an available exam the start is refused exactly when the
count of prior attempts with status submitted or graded reaches maxAttempts
and retakes are off; abandoned attempts are invisible to canUserTakeExam, and
terminated, abandoned and in-progress attempts are invisible to the TS
getRemainingAttempts, which counts only submitted and auto_submitted. -/
theorem C8_counted_statuses (e : JsExam) (now : ℤ) (atts : List JsAttempt)
    (maxA : ℤ) (tsAtts : List TsAttempt) :
    (e.isAvailable now = true →
      ((e.canUserTakeExam now atts).canTake = false ↔
        (e.maxAttempts ≤ submittedOrGradedCount atts ∧ e.allowRetakes = false)))
    ∧ (∀ a : JsAttempt, a.status = JsStatus.abandoned →
        e.canUserTakeExam now (a :: atts) = e.canUserTakeExam now atts)
    ∧ (∀ t : TsAttempt,
        t.status = TsStatus.terminated ∨ t.status = TsStatus.abandoned
          ∨ t.status = TsStatus.in_progress →
        getRemainingAttempts maxA (t :: tsAtts) = getRemainingAttempts maxA tsAtts) := by
  refine ⟨?_, ?_, ?_⟩
  · intro hav
    unfold JsExam.canUserTakeExam
    rw [if_neg (by simp [hav])]
    show (if e.maxAttempts
            ≤ (List.filter (fun a => a.status == JsStatus.submitted || a.status == JsStatus.graded)
                atts).length ∧ ¬ e.allowRetakes = true then
          ({ canTake := false, reason := some "Maximum attempts reached" } : CanTake)
        else { canTake := true, reason := none }).canTake = false
      ↔ e.maxAttempts ≤ submittedOrGradedCount atts ∧ e.allowRetakes = false
    split_ifs with hc
    · simpa [submittedOrGradedCount] using hc
    · simpa [submittedOrGradedCount] using hc
  · intro a ha
    unfold JsExam.canUserTakeExam
    by_cases hav : e.isAvailable now = true
    · have hpred : (a.status == JsStatus.submitted || a.status == JsStatus.graded) = false := by
        simp [ha]
      simp [hav, List.filter_cons, hpred]
    · simp [hav]
  · intro t ht
    have hpred : (t.status == TsStatus.submitted || t.status == TsStatus.auto_submitted) = false := by
      rcases ht with h | h | h <;> simp [h]
    simp [getRemainingAttempts, List.filter_cons, hpred]

/-- C8 witness: the refusal equation on the abandoned fixture and the
invisibility of a terminated attempt to getRemainingAttempts. -/
theorem C8_counted_statuses_witness :
    ((examC8.canUserTakeExam 10 [attC8]).canTake = false ↔
      (examC8.maxAttempts ≤ submittedOrGradedCount [attC8] ∧ examC8.allowRetakes = false))
    ∧ getRemainingAttempts 1 [tsAttC8] = getRemainingAttempts 1 [] := by
  constructor
  · exact (C8_counted_statuses examC8 10 [attC8] 1 []).1 (by decide)
  · exact (C8_counted_statuses examC8 10 [] 1 []).2.2 tsAttC8 (Or.inl rfl)

end CBT
